import Mathlib

/-!
# LynxHealth frontend — verification of the slot/calendar logic

Shallow embedding of the LynxHealth appointment-scheduling frontend
(Angular/TypeScript).  Instants on the local timeline are modelled as `Nat`
milliseconds since a local epoch whose day 0 is a Thursday (matching the JS
epoch 1970-01-01); the model assumes a uniform local timeline (no DST jumps),
so JS `Date` component extraction becomes division/modulus by constants and
`setDate`/`setMinutes` arithmetic becomes plain addition of milliseconds.

String keys such as `"YYYY-MM-DDTHH:MM:SS"` are modelled by the data that
determines them: the rendering of a civil date from a day index is injective,
so a slot key is represented by its `(day index, hour, minute)` triple (the
seconds component of a slot key is always `"00"` in the source).
-/

namespace CreateAppointments

/-- Milliseconds per minute. -/
def msPerMinute : Nat := 60000

/-- Milliseconds per hour. -/
def msPerHour : Nat := 3600000

/-- Milliseconds per day. -/
def msPerDay : Nat := 86400000

/-- A slot key.  The source renders it as the string
`formatDateKey(date) + "T" + HH + ":" + MM + ":00"`; since that rendering is
injective in `(day, hour, minute)`, we model the key by the triple itself.
`day` is the local day index (rendered `"YYYY-MM-DD"` by `formatDateKey`). -/
structure SlotKey where
  day : Nat
  hour : Nat
  minute : Nat
deriving DecidableEq, Repr

/-- JS `Date.prototype.getHours` on the uniform local timeline. -/
def getHours (t : Nat) : Nat := t / msPerHour % 24

/-- JS `Date.prototype.getMinutes` on the uniform local timeline. -/
def getMinutes (t : Nat) : Nat := t / msPerMinute % 60

/-- `formatDateKey`: the source renders the local `"YYYY-MM-DD"` of an
instant; we model the key by the local day index, which determines that
string injectively. -/
def formatDateKey (t : Nat) : Nat := t / msPerDay

/-- `getSlotKey(date)`: date key plus zero-padded `HH:MM:00` taken from the
instant's exact hour and minute (seconds are rendered as the constant
`"00"`). -/
def getSlotKey (t : Nat) : SlotKey :=
  { day := formatDateKey t, hour := getHours t, minute := getMinutes t }

/-- Loop body of `getSlotKeysInRange`: `while (cursor < end) { keys.push(getSlotKey(cursor)); cursor += 15 min }`. -/
def slotKeysAux (endT : Nat) (cursor : Nat) : List SlotKey :=
  if cursor < endT then
    getSlotKey cursor :: slotKeysAux endT (cursor + 15 * msPerMinute)
  else
    []
termination_by endT - cursor
decreasing_by simp [msPerMinute]; omega

/-- `getSlotKeysInRange(start, end)`: the cursor starts at `start` with
`setSeconds(0, 0)` applied — i.e. seconds and milliseconds zeroed, truncating
to the whole minute — and advances by 15 minutes while strictly before
`end`. -/
def getSlotKeysInRange (start endT : Nat) : List SlotKey :=
  slotKeysAux endT (start / msPerMinute * msPerMinute)

/-- Two instants produce the same slot key exactly when they lie in the same
whole minute. -/
lemma getSlotKey_eq_iff (t₁ t₂ : Nat) :
    getSlotKey t₁ = getSlotKey t₂ ↔ t₁ / msPerMinute = t₂ / msPerMinute := by
  simp only [getSlotKey, formatDateKey, getHours, getMinutes, SlotKey.mk.injEq,
    msPerMinute, msPerHour, msPerDay]
  omega

/-- Length of the slot-key loop output: one key per 15-minute step from the
cursor up to (exclusive) the end instant. -/
lemma slotKeysAux_length (endT cursor : Nat) :
    (slotKeysAux endT cursor).length = (endT - cursor + 899999) / 900000 := by
  refine slotKeysAux.induct endT
    (fun c => (slotKeysAux endT c).length = (endT - c + 899999) / 900000) ?_ ?_ cursor
  · intro c h ih
    rw [slotKeysAux, if_pos h, List.length_cons, ih]
    show (endT - (c + 15 * 60000) + 899999) / 900000 + 1 = (endT - c + 899999) / 900000
    omega
  · intro c h
    rw [slotKeysAux, if_neg h]
    show (0 : Nat) = (endT - c + 899999) / 900000
    omega

/-- Membership in the slot-key loop output: exactly the keys of the cursor
positions `cursor + 900000·i` that lie strictly before the end instant. -/
lemma mem_slotKeysAux (endT cursor : Nat) (k : SlotKey) :
    k ∈ slotKeysAux endT cursor ↔
      ∃ i : Nat, cursor + 900000 * i < endT ∧ k = getSlotKey (cursor + 900000 * i) := by
  have harg : ∀ c i : Nat, c + 15 * msPerMinute + 900000 * i = c + 900000 * (i + 1) := by
    intro c i
    show c + 15 * 60000 + 900000 * i = c + 900000 * (i + 1)
    ring
  refine slotKeysAux.induct endT
    (fun c => ∀ k : SlotKey, k ∈ slotKeysAux endT c ↔
      ∃ i : Nat, c + 900000 * i < endT ∧ k = getSlotKey (c + 900000 * i)) ?_ ?_ cursor k
  · intro c h ih k
    rw [slotKeysAux, if_pos h]
    simp only [List.mem_cons, ih]
    constructor
    · rintro (rfl | ⟨i, hi, rfl⟩)
      · exact ⟨0, by omega, by norm_num⟩
      · exact ⟨i + 1, by rw [← harg]; exact hi, by rw [← harg]⟩
    · rintro ⟨i, hi, rfl⟩
      cases i with
      | zero => left; norm_num
      | succ j => exact Or.inr ⟨j, by rw [harg]; exact hi, by rw [harg]⟩
  · intro c h k
    rw [slotKeysAux, if_neg h]
    simp only [List.not_mem_nil, false_iff, not_exists, not_and]
    intro i hi
    omega

/-- The slot-key loop never produces the same key twice: successive cursor
positions lie in distinct whole minutes. -/
lemma slotKeysAux_nodup (endT cursor : Nat) : (slotKeysAux endT cursor).Nodup := by
  refine slotKeysAux.induct endT (fun c => (slotKeysAux endT c).Nodup) ?_ ?_ cursor
  · intro c h ih
    rw [slotKeysAux, if_pos h]
    refine List.Nodup.cons ?_ ih
    rw [mem_slotKeysAux]
    rintro ⟨i, hi, hk⟩
    rw [getSlotKey_eq_iff] at hk
    revert hk
    show ¬ c / 60000 = (c + 15 * 60000 + 900000 * i) / 60000
    omega
  · intro c h
    rw [slotKeysAux, if_neg h]
    exact List.nodup_nil

/-- `getSlotKeysInRange` at the top level: length of the produced list. -/
lemma getSlotKeysInRange_length (start endT : Nat) :
    (getSlotKeysInRange start endT).length =
      (endT - start / msPerMinute * msPerMinute + 899999) / 900000 := by
  rw [getSlotKeysInRange, slotKeysAux_length]

/-- Membership in `getSlotKeysInRange`. -/
lemma mem_getSlotKeysInRange (start endT : Nat) (k : SlotKey) :
    k ∈ getSlotKeysInRange start endT ↔
      ∃ i : Nat, start / msPerMinute * msPerMinute + 900000 * i < endT ∧
        k = getSlotKey (start / msPerMinute * msPerMinute + 900000 * i) := by
  rw [getSlotKeysInRange, mem_slotKeysAux]

/-- JS `Date.prototype.setHours(0,0,0,0)` / `getStartOfDay`. -/
def getStartOfDay (t : Nat) : Nat := t / msPerDay * msPerDay

/-- JS `Date.prototype.getDay` (0 = Sunday): day 0 of the model timeline is a
Thursday, matching the JS epoch 1970-01-01. -/
def getDay (t : Nat) : Nat := (t / msPerDay + 4) % 7

/-- `getWeekStart`: start-of-day of the input, then
`offset = day === 0 ? -6 : 1 - day` days added via `setDate`. -/
def getWeekStart (t : Nat) : Nat :=
  let start := getStartOfDay t
  let day := getDay start
  let offset : Int := if day = 0 then -6 else 1 - (day : Int)
  ((start : Int) + offset * (msPerDay : Int)).toNat

/-- Zero-padding to two characters, as `String(n).padStart(2, '0')` for `n < 100`. -/
def pad2 (n : Nat) : String := if n < 10 then "0" ++ toString n else toString n

/-- The `"HH:MM:00"` string the source stores for a time slot, from the
slot's minute-of-day. -/
def timeSlotString (slot : Nat) : String :=
  pad2 (slot / 60) ++ ":" ++ pad2 (slot % 60) ++ ":00"

/-- `isLunchBreakSlot`: the hour component parsed from the slot string is 12. -/
def isLunchBreakSlot (slot : Nat) : Bool := slot / 60 == 12

/-- `formatTime`: 12-hour label with `AM`/`PM`, `normalizedHour = hour % 12 || 12`. -/
def formatTime (slot : Nat) : String :=
  let hour := slot / 60
  let minute := slot % 60
  let suffix := if hour ≥ 12 then "PM" else "AM"
  let normalizedHour := if hour % 12 = 0 then 12 else hour % 12
  toString normalizedHour ++ ":" ++ pad2 minute ++ " " ++ suffix

/-- `buildTimeSlots` loop: from 09:00 (minute 540) step 15 while at most
15:45 (minute 945). -/
def buildTimeSlotsAux (cur : Nat) : List Nat :=
  if cur ≤ 945 then cur :: buildTimeSlotsAux (cur + 15) else []
termination_by 946 - cur
decreasing_by omega

/-- `buildTimeSlots()`: the fixed ordered list of time-of-day buckets,
modelled by their minute-of-day (the source stores `timeSlotString` of
each). -/
def buildTimeSlots : List Nat := buildTimeSlotsAux (9 * 60)

/-- Closed form of the time-slot loop: an arithmetic progression of step 15. -/
lemma buildTimeSlotsAux_eq (cur : Nat) :
    buildTimeSlotsAux cur =
      (List.range ((946 - cur + 14) / 15)).map (fun i => cur + 15 * i) := by
  refine buildTimeSlotsAux.induct
    (fun c => buildTimeSlotsAux c =
      (List.range ((946 - c + 14) / 15)).map (fun i => c + 15 * i)) ?_ ?_ cur
  · intro c h ih
    rw [buildTimeSlotsAux, if_pos h, ih]
    have hn : (946 - c + 14) / 15 = (946 - (c + 15) + 14) / 15 + 1 := by omega
    rw [hn, List.range_succ_eq_map, List.map_cons, List.map_map]
    refine congrArg₂ List.cons (by norm_num) ?_
    refine List.map_congr_left ?_
    intro i _
    simp only [Function.comp_apply]
    omega
  · intro c h
    rw [buildTimeSlotsAux, if_neg h]
    have hz : (946 - c + 14) / 15 = 0 := by omega
    rw [hz, List.range_zero, List.map_nil]

/-- The time-slot loop unfolded: 09:00 .. 15:45 at 15-minute steps. -/
lemma buildTimeSlots_eq :
    buildTimeSlots = [540, 555, 570, 585, 600, 615, 630, 645, 660, 675, 690,
      705, 720, 735, 750, 765, 780, 795, 810, 825, 840, 855, 870, 885, 900,
      915, 930, 945] := by
  rw [buildTimeSlots, buildTimeSlotsAux_eq]
  decide

/-- The component's `blockedMap`, a JS `Map` from slot key to block id,
modelled as an association list in insertion order. -/
abbrev BlockedMap := List (SlotKey × Int)

/-- JS `Map.prototype.get` (absence modelled as `none`). -/
def mapGet (m : BlockedMap) (k : SlotKey) : Option Int :=
  (m.find? (fun p => decide (p.1 = k))).map (fun p => p.2)

/-- JS `Map.prototype.set`: replace in place when present, else append. -/
def mapSet (m : BlockedMap) (k : SlotKey) (v : Int) : BlockedMap :=
  if (m.find? (fun p => decide (p.1 = k))).isSome then
    m.map (fun p => if p.1 = k then (k, v) else p)
  else
    m ++ [(k, v)]

/-- JS `Map.prototype.delete`. -/
def mapDelete (m : BlockedMap) (k : SlotKey) : BlockedMap :=
  m.filter (fun p => !decide (p.1 = k))

lemma mapSet_of_get_none (m : BlockedMap) (k : SlotKey) (v : Int)
    (h : mapGet m k = none) : mapSet m k v = m ++ [(k, v)] := by
  rw [mapSet, if_neg]
  intro hs
  rw [mapGet] at h
  rcases Option.isSome_iff_exists.mp hs with ⟨p, hp⟩
  rw [hp] at h
  exact Option.noConfusion h

lemma mapGet_append_single (m : BlockedMap) (k : SlotKey) (v : Int)
    (h : mapGet m k = none) : mapGet (m ++ [(k, v)]) k = some v := by
  induction m with
  | nil => simp [mapGet, List.find?]
  | cons p rest ih =>
    rw [mapGet] at h ⊢
    rw [List.cons_append]
    by_cases hp : p.1 = k
    · rw [List.find?_cons_of_pos _ (by simp [hp])] at h
      simp at h
    · rw [List.find?_cons_of_neg _ (by simp [hp])] at h ⊢
      exact ih h

lemma mapGet_mapDelete_self (m : BlockedMap) (k : SlotKey) :
    mapGet (mapDelete m k) k = none := by
  induction m with
  | nil => simp [mapGet, mapDelete]
  | cons p rest ih =>
    rw [mapDelete]
    by_cases hp : p.1 = k
    · rw [List.filter_cons_of_neg (by simp [hp])]
      exact ih
    · rw [List.filter_cons_of_pos (by simp [hp])]
      rw [mapGet, List.find?_cons_of_neg _ (by simp [hp])]
      exact ih

/-- A calendar day entry: `date` is the midnight instant, `key` the day index
(rendered `"YYYY-MM-DD"` in the source).  The locale-dependent display label
produced by `toLocaleDateString` is omitted from the model. -/
structure CalendarDayE where
  date : Nat
  key : Nat
deriving DecidableEq, Repr

/-- A grid cell, mirroring the source's `TimeCell`.  `date` is the day key
(a `"YYYY-MM-DD"` string in the source), `time` the slot's minute-of-day
(a `"HH:MM:SS"` string in the source).  `blockedId = none` models the
JS `undefined` left by a missing map entry. -/
structure TimeCell where
  key : SlotKey
  timeLabel : String
  hourLabel : String
  date : Nat
  time : Nat
  blockedId : Option Int
  isBooked : Bool
  isLunchBreak : Bool
  isPast : Bool
deriving DecidableEq, Repr

/-- The day loop of `buildCalendar`: five consecutive days from the week
start, each normalised to midnight, skipping days strictly before today. -/
def buildCalendarDays (now weekStart : Nat) : List CalendarDayE :=
  (List.range 5).filterMap (fun i =>
    let dayDate := getStartOfDay (weekStart + i * msPerDay)
    if dayDate < getStartOfDay now then none
    else some { date := dayDate, key := formatDateKey dayDate })

/-- The cell constructor inside `buildCalendar`: the key is
`day.key + "T" + slot string`, the blocked id comes from the blocked map with
the `-1` sentinel forced for lunch cells, bookedness from the booked key set,
and `isPast` compares the parsed cell instant with `now`. -/
def cellFor (now : Nat) (blockedMap : BlockedMap) (booked : List SlotKey)
    (dayKey : Nat) (slot : Nat) : TimeCell :=
  let key : SlotKey := { day := dayKey, hour := slot / 60, minute := slot % 60 }
  let blockedId := mapGet blockedMap key
  let isBooked := decide (key ∈ booked)
  let isLunchBreak := isLunchBreakSlot slot
  let slotDateTime := dayKey * msPerDay + slot * msPerMinute
  let isPast := decide (slotDateTime < now)
  { key := key
    timeLabel := formatTime slot
    hourLabel := if (timeSlotString slot).endsWith ":00" then formatTime slot else ""
    date := dayKey
    time := slot
    blockedId := if isLunchBreak then some (-1) else blockedId
    isBooked := isBooked
    isLunchBreak := isLunchBreak
    isPast := isPast }

/-- The full grid before the final row filter: one row per time slot, one
cell per visible day. -/
def buildCalendarRowsAll (now weekStart : Nat) (blockedMap : BlockedMap)
    (booked : List SlotKey) : List (List TimeCell) :=
  buildTimeSlots.map (fun slot =>
    (buildCalendarDays now weekStart).map (fun day =>
      cellFor now blockedMap booked day.key slot))

/-- `buildCalendar`'s `calendarRows`: rows in which every cell is past are
dropped (`.filter((row) => row.some((cell) => !cell.isPast))`). -/
def buildCalendarRows (now weekStart : Nat) (blockedMap : BlockedMap)
    (booked : List SlotKey) : List (List TimeCell) :=
  (buildCalendarRowsAll now weekStart blockedMap booked).filter
    (fun row => row.any (fun cell => !cell.isPast))

/-- A network request issued by `toggleBlocked`. -/
inductive NetCall where
  | blockCall : Nat → Nat → NetCall
  | unblockCall : Int → NetCall
deriving DecidableEq, Repr

/-- The admin component state touched by `toggleBlocked`. -/
structure AdminState where
  blockedMap : BlockedMap
  adminMessage : String
  adminError : String
  isSaving : Bool
deriving DecidableEq, Repr

/-- Locale-dependent `toLocaleDateString` rendering of a day key, modelled by
the (injective) day index itself. -/
def localeDateString (dayKey : Nat) : String := toString dayKey

/-- The `blockTime` branch of `toggleBlocked`: POST the cell's date and time;
on success record the returned id in the blocked map, on failure surface the
error message.  `isSaving` is set during the await and cleared in `finally`;
the model keeps its final value. -/
def toggleBlockedCreate (st : AdminState) (cell : TimeCell)
    (blockResp : Except String Int) : AdminState × List NetCall :=
  match blockResp with
  | .ok blockedId =>
    ({ st with blockedMap := mapSet st.blockedMap cell.key blockedId,
               adminMessage := cell.timeLabel ++ " on " ++ localeDateString cell.date
                 ++ " has been blocked.",
               adminError := "", isSaving := false },
     [NetCall.blockCall cell.date cell.time])
  | .error msg =>
    ({ st with adminError := msg, adminMessage := "", isSaving := false },
     [NetCall.blockCall cell.date cell.time])

/-- `toggleBlocked(cell)`.  Guard order as in the source: non-admin role,
past cell, booked cell, lunch cell — each returns early with a local error
and no network call.  Otherwise JS truthiness of `cell.blockedId` (undefined
and 0 are falsy) picks delete-block or create-block; the server outcome is
supplied by the `blockResp`/`unblockResp` oracles.  The subsequent
`buildCalendar`/reload resynchronisation replaces local state with server
state and is outside this model (the claims assume the server accepted the
calls). -/
def toggleBlocked (role : String) (st : AdminState) (cell : TimeCell)
    (blockResp : Except String Int) (unblockResp : Except String Unit) :
    AdminState × List NetCall :=
  if role ≠ "admin" then
    ({ st with adminError := "Only admins can block appointment times." }, [])
  else if cell.isPast then
    ({ st with adminMessage := "", adminError := "Past time slots cannot be updated." }, [])
  else if cell.isBooked then
    ({ st with adminMessage := "",
               adminError := "Booked appointment times cannot be blocked." }, [])
  else if cell.isLunchBreak then
    ({ st with adminMessage := "",
               adminError := "12:00 PM to 1:00 PM is reserved for lunch and is always blocked." }, [])
  else
    match cell.blockedId with
    | some bid =>
      if bid ≠ 0 then
        match unblockResp with
        | .ok _ =>
          ({ st with blockedMap := mapDelete st.blockedMap cell.key,
                     adminMessage := cell.timeLabel ++ " on " ++ localeDateString cell.date
                       ++ " is now available.",
                     adminError := "", isSaving := false },
           [NetCall.unblockCall bid])
        | .error msg =>
          ({ st with adminError := msg, adminMessage := "", isSaving := false },
           [NetCall.unblockCall bid])
      else
        toggleBlockedCreate st cell blockResp
    | none =>
      toggleBlockedCreate st cell blockResp

/-- A booked appointment as fetched from the server.  Timestamp fields stay
raw strings: the component parses them with `new Date(...)`, modelled by a
parse oracle returning `none` for an invalid date (JS `NaN`). -/
structure BookedAppointment where
  id : Nat
  student_email : String
  appointment_type : String
  duration_minutes : Nat
  start_time : String
  end_time : String
  status : String
  notes : Option String
deriving DecidableEq, Repr

/-- Per-appointment expansion inside `loadBookedAppointments`: appointments
whose start or end fails to parse, or whose end is not strictly after the
start, are skipped (`continue`); the rest expand via `getSlotKeysInRange`. -/
def bookedExpansion (parseDate : String → Option Nat) (a : BookedAppointment) :
    List SlotKey :=
  match parseDate a.start_time, parseDate a.end_time with
  | some start, some endT => if endT ≤ start then [] else getSlotKeysInRange start endT
  | some _, none => []
  | none, _ => []

/-- The well-formedness test implicit in `loadBookedAppointments`'s guard. -/
def bookedWellFormed (parseDate : String → Option Nat) (a : BookedAppointment) : Bool :=
  match parseDate a.start_time, parseDate a.end_time with
  | some start, some endT => decide (start < endT)
  | some _, none => false
  | none, _ => false

/-- `loadBookedAppointments`' key accumulation: every fetched appointment's
expansion added to `bookedSlotKeys` (a JS `Set`; we model the accumulated
list, membership being what the grid consumes). -/
def loadBookedSlotKeys (parseDate : String → Option Nat)
    (appointments : List BookedAppointment) : List SlotKey :=
  appointments.flatMap (bookedExpansion parseDate)

end CreateAppointments

namespace MyAppointments

/-- The my-appointments component declares a `BookedAppointment` interface
identical to the one in create-appointments; we reuse that structure. -/
abbrev BookedAppointment := CreateAppointments.BookedAppointment

/-- The observable result of `JSON.parse` on a stored session blob followed
by the component's optional-field reads: either the parse (or a subsequent
property access on a non-object value) throws, or it yields the `role` and
`email` fields, each possibly absent (`undefined`). -/
structure SessionObj where
  role : Option String
  email : Option String
deriving DecidableEq, Repr

/-- `getRole()`: absent blob or a throwing parse gives `"user"`; a parsed
object gives `"admin"` only when its `role` field is exactly `"admin"`.
This code appears identically in the my-appointments and create-appointments
components.  `raw` is the stored `lynxSession` value, `parse` the
`JSON.parse` behaviour. -/
def getRole (raw : Option String) (parse : String → Except Unit SessionObj) : String :=
  match raw with
  | none => "user"
  | some data =>
    match parse data with
    | .error _ => "user"
    | .ok parsed => if parsed.role = some "admin" then "admin" else "user"

/-- `getSessionEmail()` in the my-appointments component:
`parsed.email?.trim().toLowerCase() || 'student@lynxhealth.local'`. -/
def getSessionEmail (raw : Option String) (parse : String → Except Unit SessionObj) : String :=
  match raw with
  | none => "student@lynxhealth.local"
  | some data =>
    match parse data with
    | .error _ => "student@lynxhealth.local"
    | .ok parsed =>
      match parsed.email with
      | none => "student@lynxhealth.local"
      | some e =>
        let normalized := e.trim.toLower
        if normalized = "" then "student@lynxhealth.local" else normalized

/-- `saveNotes`' reconciliation of a successful PATCH response into the local
list: `this.appointments.map((item) => (item.id === updated.id ? updated : item))`. -/
def saveNotesApply (appointments : List BookedAppointment)
    (updated : BookedAppointment) : List BookedAppointment :=
  appointments.map (fun item => if item.id = updated.id then updated else item)

end MyAppointments

namespace MyAppointmentsLegacy

/-- `getSessionEmail()` in the earlier my-appointments revision
(src/unnamed/part_003): absent blob, throwing parse, or missing/empty `email`
all yield the empty string (`parsed.email || ''`), with no trimming or
lowercasing. -/
def getSessionEmail (raw : Option String)
    (parse : String → Except Unit MyAppointments.SessionObj) : String :=
  match raw with
  | none => ""
  | some data =>
    match parse data with
    | .error _ => ""
    | .ok parsed =>
      match parsed.email with
      | none => ""
      | some e => e

end MyAppointmentsLegacy

namespace AvailabilityCalendar

/-- The student-facing time-of-day filter. -/
inductive TimeOfDayFilter where
  | all
  | morning
  | afternoon
deriving DecidableEq, Repr

/-- A merged calendar slot fetched from `/availability/calendar`.  `date` is
the server's `"YYYY-MM-DD"` day key (modelled by its day index), `time` the
`"HH:MM:SS"` local time (modelled by its minute-of-day; the component reads
only its hour component).  `start_time` stays a raw string: the staged-slot
check compares it by string equality. -/
structure CalendarSlot where
  date : Nat
  time : Nat
  duration_minutes : Nat
  appointment_type : String
  start_time : String
  end_time : String
  status : String
  is_available : Bool
  is_blocked : Bool
  is_booked : Bool
deriving DecidableEq, Repr

/-- The component state touched by `updateFilteredSlots`/`updateWeekView`
(src/unnamed/part_006, booking-enabled revision). -/
structure AvailState where
  slots : List CalendarSlot
  filteredSlots : List CalendarSlot
  visibleWeekDays : List CreateAppointments.CalendarDayE
  visibleWeekSlotsByDay : List (Nat × List CalendarSlot)
  currentWeekStart : Nat
  weekIndex : Nat
  selectedTimeOfDay : TimeOfDayFilter
  selectedAppointmentType : String
  selectedBookingSlot : Option CalendarSlot
  bookingNotes : String
  error : String
  bookingError : String
deriving DecidableEq, Repr

/-- `matchesCriteria(slot)`: the appointment type must equal the selection;
`morning` keeps hours before 12, `afternoon` hours from 12 on. -/
def matchesCriteria (st : AvailState) (slot : CalendarSlot) : Bool :=
  if slot.appointment_type ≠ st.selectedAppointmentType then
    false
  else
    match st.selectedTimeOfDay with
    | .all => true
    | .morning => decide (slot.time / 60 < 12)
    | .afternoon => decide (12 ≤ slot.time / 60)

/-- `updateWeekView()`: seven consecutive days from the current week start
shifted by `weekIndex` weeks; per-day slots are the filtered slots whose
`date` equals the day key. -/
def updateWeekView (st : AvailState) : AvailState :=
  let start := st.currentWeekStart + st.weekIndex * 7 * CreateAppointments.msPerDay
  let days := (List.range 7).map (fun offset => start + offset * CreateAppointments.msPerDay)
  { st with
    visibleWeekDays := days.map (fun d =>
      { date := d, key := CreateAppointments.formatDateKey d })
    visibleWeekSlotsByDay := days.map (fun d =>
      (CreateAppointments.formatDateKey d,
        st.filteredSlots.filter (fun slot =>
          slot.date == CreateAppointments.formatDateKey d))) }

/-- `updateFilteredSlots()`.  With no selected appointment type (JS falsy
empty string) the filtered set and week view are reset and the method
returns early.  Otherwise the filtered set is recomputed from the available
slots matching the criteria; if a staged booking slot no longer has a
start-time match in the new filtered set, the staged selection and its draft
notes are cleared; finally the week view is rebuilt. -/
def updateFilteredSlots (st : AvailState) : AvailState :=
  if st.selectedAppointmentType = "" then
    { st with filteredSlots := [], visibleWeekDays := [], visibleWeekSlotsByDay := [] }
  else
    let filtered := st.slots.filter (fun slot =>
      slot.is_available && matchesCriteria st slot)
    let st₁ := { st with filteredSlots := filtered }
    let st₂ :=
      match st₁.selectedBookingSlot with
      | none => st₁
      | some sel =>
        if filtered.any (fun slot => slot.start_time == sel.start_time) then
          st₁
        else
          { st₁ with selectedBookingSlot := none, bookingNotes := "" }
    updateWeekView st₂

end AvailabilityCalendar

namespace AvailabilityLegacy

/-- `getWeekStart` in the legacy slot-calendar revision
(src/unnamed/part_004): start-of-day, then `setDate(getDate() - getDay())` —
the Sunday of the containing week.  Faithful on the Nat timeline for inputs
at least a week after the epoch. -/
def getWeekStart (t : Nat) : Nat :=
  CreateAppointments.getStartOfDay t -
    CreateAppointments.getDay (CreateAppointments.getStartOfDay t) *
      CreateAppointments.msPerDay

end AvailabilityLegacy

/-- Helper: an appointment failing the well-formedness guard expands to no
slot keys. -/
lemma bookedExpansion_eq_nil (parseDate : String → Option Nat)
    (a : CreateAppointments.BookedAppointment)
    (h : CreateAppointments.bookedWellFormed parseDate a = false) :
    CreateAppointments.bookedExpansion parseDate a = [] := by
  rw [CreateAppointments.bookedWellFormed] at h
  rw [CreateAppointments.bookedExpansion]
  rcases hs : parseDate a.start_time with _ | s
  · rfl
  · rcases he : parseDate a.end_time with _ | e
    · rfl
    · rw [hs, he] at h
      have h' : decide (s < e) = false := h
      show (if e ≤ s then [] else CreateAppointments.getSlotKeysInRange s e) = []
      rw [if_pos (Nat.le_of_not_lt (of_decide_eq_false h'))]

/- ================= Claim theorems ================= -/

/-- Claim C2 (counterexample): the instants 00:00:00 and 00:05:00 of day 0
fall in the same 15-minute bucket, yet `getSlotKey` gives them different
keys — the key is the exact minute, not the 15-minute floor. -/
theorem c2_same_bucket_counterexample :
    (0 : Nat) / 900000 = 300000 / 900000 ∧
      CreateAppointments.getSlotKey 0 ≠ CreateAppointments.getSlotKey 300000 := by
  decide

/-- Claim C2 (amended): two instants within the same whole minute yield the
same slot key from `getSlotKey` (millisecond — indeed second — precision is
dropped by the key format). -/
theorem c2_slot_key_same_minute (t₁ t₂ : Nat)
    (h : t₁ / CreateAppointments.msPerMinute = t₂ / CreateAppointments.msPerMinute) :
    CreateAppointments.getSlotKey t₁ = CreateAppointments.getSlotKey t₂ :=
  (CreateAppointments.getSlotKey_eq_iff t₁ t₂).mpr h

/-- Witness for C2's amended theorem at the instants 00:00:30.000 and
00:00:59.999 of day 0. -/
theorem c2_slot_key_same_minute_witness :
    30000 / CreateAppointments.msPerMinute = 59999 / CreateAppointments.msPerMinute ∧
      CreateAppointments.getSlotKey 30000 = CreateAppointments.getSlotKey 59999 :=
  ⟨by decide, c2_slot_key_same_minute 30000 59999 (by decide)⟩

/-- Claim C1 (counterexample): for start 00:00:30 and end 00:15:30 of day 0
(duration exactly 15 minutes), the expansion has 2 keys, not
`ceil((end-start)/15min) = 1`, and it does contain the key of the instant
`end` itself. -/
theorem c1_slot_keys_counterexample :
    (CreateAppointments.getSlotKeysInRange 30000 930000).length ≠
        (930000 - 30000 + 899999) / 900000 ∧
      CreateAppointments.getSlotKey 930000 ∈
        CreateAppointments.getSlotKeysInRange 30000 930000 := by
  constructor
  · rw [CreateAppointments.getSlotKeysInRange_length]
    decide
  · rw [CreateAppointments.mem_getSlotKeysInRange]
    exact ⟨1, by decide, by decide⟩

/-- Claim C1 (amended): for start < end, `getSlotKeysInRange` produces a
duplicate-free list of keys of size `ceil((end − start′)/15min)` where
`start′` is the start truncated to the whole minute (seconds and
milliseconds zeroed, as `setSeconds(0, 0)` does), and the key of the instant
`end` is excluded whenever `end` lies on a whole minute. -/
theorem c1_slot_keys_in_range (start endT : Nat) (h : start < endT) :
    (CreateAppointments.getSlotKeysInRange start endT).length =
        (endT - start / CreateAppointments.msPerMinute * CreateAppointments.msPerMinute
          + 899999) / 900000 ∧
      (CreateAppointments.getSlotKeysInRange start endT).Nodup ∧
      (endT % CreateAppointments.msPerMinute = 0 →
        CreateAppointments.getSlotKey endT ∉
          CreateAppointments.getSlotKeysInRange start endT) := by
  refine ⟨CreateAppointments.getSlotKeysInRange_length start endT,
    CreateAppointments.slotKeysAux_nodup endT _, ?_⟩
  intro hmod hmem
  rw [CreateAppointments.mem_getSlotKeysInRange] at hmem
  obtain ⟨i, hi, hk⟩ := hmem
  rw [CreateAppointments.getSlotKey_eq_iff] at hk
  revert hmod hi hk
  show endT % 60000 = 0 →
    start / 60000 * 60000 + 900000 * i < endT →
    ¬ endT / 60000 = (start / 60000 * 60000 + 900000 * i) / 60000
  omega

/-- Witness for C1's amended theorem at start 00:00:00, end 00:15:00 of
day 0: one key, no duplicates, no key at the end instant. -/
theorem c1_slot_keys_in_range_witness :
    0 < 900000 ∧
      ((CreateAppointments.getSlotKeysInRange 0 900000).length =
          (900000 - 0 / CreateAppointments.msPerMinute * CreateAppointments.msPerMinute
            + 899999) / 900000 ∧
        (CreateAppointments.getSlotKeysInRange 0 900000).Nodup ∧
        (900000 % CreateAppointments.msPerMinute = 0 →
          CreateAppointments.getSlotKey 900000 ∉
            CreateAppointments.getSlotKeysInRange 0 900000)) :=
  ⟨by decide, c1_slot_keys_in_range 0 900000 (by decide)⟩

/-- Claim C8 (counterexample): day 19732 of the model timeline (a Wednesday,
2024-01-10 on the JS epoch) maps to the Monday two days prior, not three
days prior as claimed. -/
theorem c8_week_start_counterexample :
    CreateAppointments.getDay (19732 * CreateAppointments.msPerDay) = 3 ∧
      CreateAppointments.getWeekStart (19732 * CreateAppointments.msPerDay) =
        19730 * CreateAppointments.msPerDay ∧
      CreateAppointments.getWeekStart (19732 * CreateAppointments.msPerDay) ≠
        19732 * CreateAppointments.msPerDay - 3 * CreateAppointments.msPerDay := by
  decide

/-- Claim C8 (amended): for any input at least a week after the epoch,
`getWeekStart` in create-appointments returns the Monday of the containing
week with hours zeroed — a Wednesday input maps to the Monday two days
prior and a Sunday input to the Monday six days prior (offset −6 special
case) — while the legacy revision (src/unnamed/part_004) instead returns the
Sunday of the containing week. -/
theorem c8_week_start (t : Nat) (h : 7 * CreateAppointments.msPerDay ≤ t) :
    CreateAppointments.getWeekStart t % CreateAppointments.msPerDay = 0 ∧
      CreateAppointments.getDay (CreateAppointments.getWeekStart t) = 1 ∧
      CreateAppointments.getWeekStart t =
        CreateAppointments.getStartOfDay t -
          (CreateAppointments.getDay t + 6) % 7 * CreateAppointments.msPerDay ∧
      (CreateAppointments.getDay t = 3 →
        CreateAppointments.getWeekStart t =
          CreateAppointments.getStartOfDay t - 2 * CreateAppointments.msPerDay) ∧
      (CreateAppointments.getDay t = 0 →
        CreateAppointments.getWeekStart t =
          CreateAppointments.getStartOfDay t - 6 * CreateAppointments.msPerDay) ∧
      CreateAppointments.getDay (AvailabilityLegacy.getWeekStart t) = 0 ∧
      AvailabilityLegacy.getWeekStart t =
        CreateAppointments.getStartOfDay t -
          CreateAppointments.getDay t * CreateAppointments.msPerDay := by
  simp only [CreateAppointments.getWeekStart, AvailabilityLegacy.getWeekStart,
    CreateAppointments.getStartOfDay, CreateAppointments.getDay,
    CreateAppointments.msPerDay] at h ⊢
  split_ifs with hday
  · omega
  · omega

/-- Witness for C8's amended theorem at the Wednesday day 19732. -/
theorem c8_week_start_witness :
    7 * CreateAppointments.msPerDay ≤ 19732 * CreateAppointments.msPerDay ∧
      CreateAppointments.getWeekStart (19732 * CreateAppointments.msPerDay) =
        CreateAppointments.getStartOfDay (19732 * CreateAppointments.msPerDay) -
          2 * CreateAppointments.msPerDay :=
  ⟨by decide,
    (c8_week_start (19732 * CreateAppointments.msPerDay) (by decide)).2.2.2.1 (by decide)⟩

/-- Claim C10: when building the occupied slot-key set from fetched
bookings, every appointment whose start or end fails to parse, or whose end
is not strictly after its start, contributes no slot keys and is silently
skipped — the accumulated keys equal those of the well-formed appointments
alone — and each well-formed appointment contributes the finite number
`ceil((end − start′)/15min)` of keys, so the expansion is total on
arbitrary payloads. -/
theorem c10_booked_expansion_total :
    (∀ (parseDate : String → Option Nat) (a : CreateAppointments.BookedAppointment),
      parseDate a.start_time = none ∨ parseDate a.end_time = none ∨
        (∃ s e, parseDate a.start_time = some s ∧ parseDate a.end_time = some e ∧ e ≤ s) →
      CreateAppointments.bookedExpansion parseDate a = []) ∧
    (∀ (parseDate : String → Option Nat)
        (appointments : List CreateAppointments.BookedAppointment),
      CreateAppointments.loadBookedSlotKeys parseDate appointments =
        (appointments.filter (CreateAppointments.bookedWellFormed parseDate)).flatMap
          (CreateAppointments.bookedExpansion parseDate)) ∧
    (∀ (parseDate : String → Option Nat) (a : CreateAppointments.BookedAppointment)
        (s e : Nat),
      parseDate a.start_time = some s → parseDate a.end_time = some e → s < e →
      (CreateAppointments.bookedExpansion parseDate a).length =
        (e - s / CreateAppointments.msPerMinute * CreateAppointments.msPerMinute
          + 899999) / 900000) := by
  refine ⟨?_, ?_, ?_⟩
  · intro parseDate a h
    apply bookedExpansion_eq_nil
    rw [CreateAppointments.bookedWellFormed]
    rcases h with hs | he | ⟨s, e, hs, he, hle⟩
    · rw [hs]
    · rcases hs : parseDate a.start_time with _ | s
      · rfl
      · rw [he]
    · rw [hs, he]
      show decide (s < e) = false
      simp only [decide_eq_false_iff_not, not_lt]
      exact hle
  · intro parseDate appointments
    induction appointments with
    | nil => rfl
    | cons a rest ih =>
      rw [CreateAppointments.loadBookedSlotKeys, List.flatMap_cons]
      rcases hwf : CreateAppointments.bookedWellFormed parseDate a with _ | _
      · rw [List.filter_cons_of_neg (by simp [hwf]), bookedExpansion_eq_nil parseDate a hwf,
          List.nil_append]
        exact ih
      · rw [List.filter_cons_of_pos (by simp [hwf]), List.flatMap_cons]
        rw [CreateAppointments.loadBookedSlotKeys] at ih
        rw [ih]
  · intro parseDate a s e hs he hlt
    rw [CreateAppointments.bookedExpansion, hs, he]
    show (if e ≤ s then [] else CreateAppointments.getSlotKeysInRange s e).length = _
    rw [if_neg (by omega)]
    exact CreateAppointments.getSlotKeysInRange_length s e

/-- A sample malformed/well-formed appointment payload used by the C10
witness. -/
def sampleAppointment : CreateAppointments.BookedAppointment :=
  { id := 7, student_email := "s@lynxhealth.local", appointment_type := "testing",
    duration_minutes := 15, start_time := "A", end_time := "B",
    status := "booked", notes := none }

/-- A sample date-parse oracle for the C10 witness: `"A"` parses to
00:00:30 and `"B"` to 00:15:30 of day 0; everything else is invalid. -/
def sampleParse (s : String) : Option Nat :=
  if s = "A" then some 30000 else if s = "B" then some 930000 else none

/-- Witness for C10: with an all-invalid parse the sample appointment
contributes nothing; with the sample parse it contributes
`ceil((end − start′)/15min) = 2` keys. -/
theorem c10_booked_expansion_total_witness :
    CreateAppointments.bookedExpansion (fun _ => none) sampleAppointment = [] ∧
      (CreateAppointments.bookedExpansion sampleParse sampleAppointment).length =
        (930000 - 30000 / CreateAppointments.msPerMinute * CreateAppointments.msPerMinute
          + 899999) / 900000 :=
  ⟨c10_booked_expansion_total.1 (fun _ => none) sampleAppointment (Or.inl rfl),
    c10_booked_expansion_total.2.2 sampleParse sampleAppointment 30000 930000
      (by decide) (by decide) (by decide)⟩

/-- Claim C5 (counterexample): on an absent stored session value the
part_003 session reader returns the empty string, which is neither of the
documented placeholder emails. -/
theorem c5_session_email_counterexample :
    MyAppointmentsLegacy.getSessionEmail none (fun _ => .error ()) = "" ∧
      MyAppointmentsLegacy.getSessionEmail none (fun _ => .error ()) ≠
        "student@lynxhealth.local" ∧
      MyAppointmentsLegacy.getSessionEmail none (fun _ => .error ()) ≠
        "user@lynxhealth.local" := by
  refine ⟨rfl, ?_, ?_⟩ <;> decide

/-- Claim C5 (amended): for every malformed or missing session payload
(absent blob, throwing parse, or object with both fields absent), the
session readers never throw (they are total) and return role `"user"`; the
my-appointments email reader returns the placeholder
`"student@lynxhealth.local"`, while the earlier part_003 revision returns
the empty string instead of a placeholder. -/
theorem c5_session_reader_defaults (raw : Option String)
    (parse : String → Except Unit MyAppointments.SessionObj)
    (h : raw = none ∨ ∀ d, raw = some d →
      parse d = .error () ∨ parse d = .ok { role := none, email := none }) :
    MyAppointments.getRole raw parse = "user" ∧
      MyAppointments.getSessionEmail raw parse = "student@lynxhealth.local" ∧
      MyAppointmentsLegacy.getSessionEmail raw parse = "" := by
  rcases h with h | h
  · subst h
    exact ⟨rfl, rfl, rfl⟩
  · rcases raw with _ | d
    · exact ⟨rfl, rfl, rfl⟩
    · rcases h d rfl with hp | hp <;>
        simp [MyAppointments.getRole, MyAppointments.getSessionEmail,
          MyAppointmentsLegacy.getSessionEmail, hp]

/-- Witness for C5: an absent blob with a throwing parse hits all three
defaults. -/
theorem c5_session_reader_defaults_witness :
    MyAppointments.getRole none (fun _ => .error ()) = "user" ∧
      MyAppointments.getSessionEmail none (fun _ => .error ()) =
        "student@lynxhealth.local" ∧
      MyAppointmentsLegacy.getSessionEmail none (fun _ => .error ()) = "" :=
  c5_session_reader_defaults none (fun _ => .error ()) (Or.inl rfl)

/-- Claim C7: after a successful notes-update PATCH whose response has
id `k`, the reconciled list keeps its length and order, every entry whose
id is `k` is replaced by the response, and every entry with a different id
is unchanged. -/
theorem c7_save_notes_frame (l : List MyAppointments.BookedAppointment)
    (updated : MyAppointments.BookedAppointment) :
    (MyAppointments.saveNotesApply l updated).length = l.length ∧
      ∀ (i : Nat) (a : MyAppointments.BookedAppointment), l[i]? = some a →
        (a.id = updated.id →
          (MyAppointments.saveNotesApply l updated)[i]? = some updated) ∧
        (a.id ≠ updated.id →
          (MyAppointments.saveNotesApply l updated)[i]? = some a) := by
  constructor
  · rw [MyAppointments.saveNotesApply]
    exact List.length_map _ _
  · intro i a ha
    rw [MyAppointments.saveNotesApply, List.getElem?_map, ha]
    constructor
    · intro hid
      simp [hid]
    · intro hid
      simp [hid]

/-- Sample list entries for the C7 witness. -/
def witnessAppointmentA : MyAppointments.BookedAppointment :=
  { id := 7, student_email := "a@lynxhealth.local", appointment_type := "testing",
    duration_minutes := 30, start_time := "S1", end_time := "E1",
    status := "booked", notes := some "old" }

/-- Second sample list entry for the C7 witness. -/
def witnessAppointmentB : MyAppointments.BookedAppointment :=
  { id := 8, student_email := "b@lynxhealth.local", appointment_type := "counseling",
    duration_minutes := 60, start_time := "S2", end_time := "E2",
    status := "booked", notes := none }

/-- The PATCH response for the C7 witness: id 7 with new notes. -/
def witnessAppointmentA' : MyAppointments.BookedAppointment :=
  { witnessAppointmentA with notes := some "new" }

/-- Witness for C7: in a two-element list, the id-7 entry is replaced and
the id-8 entry survives unchanged. -/
theorem c7_save_notes_frame_witness :
    (MyAppointments.saveNotesApply [witnessAppointmentA, witnessAppointmentB]
        witnessAppointmentA')[0]? = some witnessAppointmentA' ∧
      (MyAppointments.saveNotesApply [witnessAppointmentA, witnessAppointmentB]
        witnessAppointmentA')[1]? = some witnessAppointmentB :=
  ⟨((c7_save_notes_frame [witnessAppointmentA, witnessAppointmentB]
      witnessAppointmentA').2 0 witnessAppointmentA rfl).1 rfl,
    ((c7_save_notes_frame [witnessAppointmentA, witnessAppointmentB]
      witnessAppointmentA').2 1 witnessAppointmentB rfl).2 (by decide)⟩

/-- A sample staged calendar slot for the C9 theorems. -/
def stagedSlot : AvailabilityCalendar.CalendarSlot :=
  { date := 19732, time := 600, duration_minutes := 30,
    appointment_type := "testing", start_time := "T1", end_time := "T2",
    status := "available", is_available := true, is_blocked := false,
    is_booked := false }

/-- A component state with an empty selected appointment type but a staged
booking slot, exercising the early-return branch of `updateFilteredSlots`. -/
def emptyTypeState : AvailabilityCalendar.AvailState :=
  { slots := [], filteredSlots := [stagedSlot], visibleWeekDays := [],
    visibleWeekSlotsByDay := [],
    currentWeekStart := 19730 * CreateAppointments.msPerDay, weekIndex := 0,
    selectedTimeOfDay := .all, selectedAppointmentType := "",
    selectedBookingSlot := some stagedSlot, bookingNotes := "draft",
    error := "", bookingError := "" }

/-- Claim C9 (counterexample): with an empty selected appointment type,
`updateFilteredSlots` resets the filtered set to empty — so no slot matches
the staged slot's start time — yet the staged selection and its draft notes
are left in place, contradicting the claimed clearing after any
recomputation. -/
theorem c9_stale_selection_counterexample :
    (AvailabilityCalendar.updateFilteredSlots emptyTypeState).filteredSlots = [] ∧
      (AvailabilityCalendar.updateFilteredSlots emptyTypeState).selectedBookingSlot =
        some stagedSlot ∧
      (AvailabilityCalendar.updateFilteredSlots emptyTypeState).bookingNotes =
        "draft" := by
  decide

/-- Claim C9 (amended): after `updateFilteredSlots` with a non-empty
selected appointment type, a staged slot with no start-time match in the new
filtered set is cleared together with its draft notes, and a staged slot
with a match is retained; the error strings are never touched.  With an
empty selected type the method returns early: the filtered set is reset to
empty but the staged selection and notes are left untouched. -/
theorem c9_update_filtered_slots (st : AvailabilityCalendar.AvailState) :
    (st.selectedAppointmentType = "" →
      (AvailabilityCalendar.updateFilteredSlots st).filteredSlots = [] ∧
        (AvailabilityCalendar.updateFilteredSlots st).selectedBookingSlot =
          st.selectedBookingSlot ∧
        (AvailabilityCalendar.updateFilteredSlots st).bookingNotes =
          st.bookingNotes) ∧
    (∀ sel, st.selectedAppointmentType ≠ "" → st.selectedBookingSlot = some sel →
      ((AvailabilityCalendar.updateFilteredSlots st).filteredSlots.any
          (fun slot => slot.start_time == sel.start_time) = false →
        (AvailabilityCalendar.updateFilteredSlots st).selectedBookingSlot = none ∧
          (AvailabilityCalendar.updateFilteredSlots st).bookingNotes = "") ∧
      ((AvailabilityCalendar.updateFilteredSlots st).filteredSlots.any
          (fun slot => slot.start_time == sel.start_time) = true →
        (AvailabilityCalendar.updateFilteredSlots st).selectedBookingSlot =
            some sel ∧
          (AvailabilityCalendar.updateFilteredSlots st).bookingNotes =
            st.bookingNotes)) ∧
    (AvailabilityCalendar.updateFilteredSlots st).error = st.error ∧
    (AvailabilityCalendar.updateFilteredSlots st).bookingError = st.bookingError := by
  by_cases htype : st.selectedAppointmentType = ""
  · refine ⟨fun _ => ⟨?_, ?_, ?_⟩, fun sel hne => absurd htype hne, ?_, ?_⟩ <;>
      simp [AvailabilityCalendar.updateFilteredSlots, htype]
  · have hfil : (AvailabilityCalendar.updateFilteredSlots st).filteredSlots =
        st.slots.filter (fun slot =>
          slot.is_available && AvailabilityCalendar.matchesCriteria st slot) := by
      rw [AvailabilityCalendar.updateFilteredSlots, if_neg htype]
      rcases hsel : st.selectedBookingSlot with _ | sel
      · simp only [hsel]
        rfl
      · simp only [hsel]
        split_ifs <;> rfl
    refine ⟨fun h => absurd h htype, ?_, ?_, ?_⟩
    · intro sel hne hstag
      rw [hfil]
      rw [AvailabilityCalendar.updateFilteredSlots, if_neg htype]
      simp only [hstag]
      by_cases hany : (st.slots.filter (fun slot =>
          slot.is_available && AvailabilityCalendar.matchesCriteria st slot)).any
            (fun slot => slot.start_time == sel.start_time) = true
      · rw [if_pos hany]
        refine ⟨fun hno => ?_, fun _ => ⟨rfl, rfl⟩⟩
        rw [hno] at hany
        exact Bool.noConfusion hany
      · rw [if_neg hany]
        exact ⟨fun _ => ⟨rfl, rfl⟩, fun hyes => absurd hyes hany⟩
    · rw [AvailabilityCalendar.updateFilteredSlots, if_neg htype]
      rcases hsel : st.selectedBookingSlot with _ | sel
      · simp only [hsel]
        rfl
      · simp only [hsel]
        split_ifs <;> rfl
    · rw [AvailabilityCalendar.updateFilteredSlots, if_neg htype]
      rcases hsel : st.selectedBookingSlot with _ | sel
      · simp only [hsel]
        rfl
      · simp only [hsel]
        split_ifs <;> rfl

/-- A component state for the C9 witness: a selected type and a staged slot
that no longer appears among the available slots. -/
def staleSelectionState : AvailabilityCalendar.AvailState :=
  { emptyTypeState with selectedAppointmentType := "testing", slots := [] }

/-- Witness for C9's amended theorem: with type `"testing"` selected and no
available slot matching the staged start time, the staged selection and
notes are cleared and the error strings stay untouched. -/
theorem c9_update_filtered_slots_witness :
    (AvailabilityCalendar.updateFilteredSlots staleSelectionState).selectedBookingSlot
        = none ∧
      (AvailabilityCalendar.updateFilteredSlots staleSelectionState).bookingNotes
        = "" :=
  ((c9_update_filtered_slots staleSelectionState).2.1 stagedSlot (by decide) rfl).1
    (by decide)

/-- Claim C3: in every grid built at a fixed `now`, a row whose cells are
all past is absent from `calendarRows`, and a row with at least one
non-past cell appears in `calendarRows` as a whole (its past cells
included, since the filter keeps or drops entire rows). -/
theorem c3_calendar_row_filter (now weekStart : Nat)
    (m : CreateAppointments.BlockedMap) (booked : List CreateAppointments.SlotKey)
    (row : List CreateAppointments.TimeCell)
    (hrow : row ∈ CreateAppointments.buildCalendarRowsAll now weekStart m booked) :
    ((∀ cell ∈ row, cell.isPast = true) →
      row ∉ CreateAppointments.buildCalendarRows now weekStart m booked) ∧
    ((∃ cell ∈ row, cell.isPast = false) →
      row ∈ CreateAppointments.buildCalendarRows now weekStart m booked) := by
  constructor
  · intro hall hmem
    rw [CreateAppointments.buildCalendarRows, List.mem_filter] at hmem
    obtain ⟨-, hpred⟩ := hmem
    rw [List.any_eq_true] at hpred
    obtain ⟨c, hc, hcp⟩ := hpred
    have hcpast := hall c hc
    rw [hcpast] at hcp
    exact Bool.noConfusion hcp
  · rintro ⟨c, hc, hcp⟩
    rw [CreateAppointments.buildCalendarRows, List.mem_filter]
    exact ⟨hrow, List.any_eq_true.mpr ⟨c, hc, by rw [hcp]; rfl⟩⟩

/-- A grid-construction instant late on the only visible day, so that every
cell of every row is past. -/
def pastGridNow : Nat := 7 * CreateAppointments.msPerDay + 16 * CreateAppointments.msPerHour

/-- A week start four days before `pastGridNow`'s day: only that day
survives the past-day filter. -/
def pastGridWeekStart : Nat := 3 * CreateAppointments.msPerDay

/-- A grid-construction instant at 10:00 of the week's first day, so the
09:00 row has one past cell and four future cells. -/
def liveGridNow : Nat := 7 * CreateAppointments.msPerDay + 10 * CreateAppointments.msPerHour

/-- The week start of `liveGridNow`'s own day. -/
def liveGridWeekStart : Nat := 7 * CreateAppointments.msPerDay

/-- Witness for C3: the all-past 09:00 row of the late-evening grid is
dropped, and the partly-past 09:00 row of the mid-morning grid is retained
whole. -/
theorem c3_calendar_row_filter_witness :
    ((CreateAppointments.buildCalendarDays pastGridNow pastGridWeekStart).map
        (fun day => CreateAppointments.cellFor pastGridNow [] [] day.key 540)) ∉
      CreateAppointments.buildCalendarRows pastGridNow pastGridWeekStart [] [] ∧
    ((CreateAppointments.buildCalendarDays liveGridNow liveGridWeekStart).map
        (fun day => CreateAppointments.cellFor liveGridNow [] [] day.key 540)) ∈
      CreateAppointments.buildCalendarRows liveGridNow liveGridWeekStart [] [] := by
  refine ⟨(c3_calendar_row_filter pastGridNow pastGridWeekStart [] [] _ ?_).1 ?_,
    (c3_calendar_row_filter liveGridNow liveGridWeekStart [] [] _ ?_).2 ?_⟩
  · rw [CreateAppointments.buildCalendarRowsAll]
    exact List.mem_map.mpr ⟨540, by rw [CreateAppointments.buildTimeSlots_eq]; decide, rfl⟩
  · decide
  · rw [CreateAppointments.buildCalendarRowsAll]
    exact List.mem_map.mpr ⟨540, by rw [CreateAppointments.buildTimeSlots_eq]; decide, rfl⟩
  · decide

/-- Claim C4: a toggle on a past, booked, or lunch cell issues no network
call, leaves the blocked map unchanged, and sets a non-empty local error
(whatever the role and server behaviour); and every lunch-hour cell built by
the grid (slot hour 12) is marked as lunch with its blocked id forced to the
`-1` sentinel regardless of the stored block map. -/
theorem c4_toggle_guard_and_lunch :
    (∀ (role : String) (st : CreateAppointments.AdminState)
        (cell : CreateAppointments.TimeCell)
        (blockResp : Except String Int) (unblockResp : Except String Unit),
      cell.isPast = true ∨ cell.isBooked = true ∨ cell.isLunchBreak = true →
      (CreateAppointments.toggleBlocked role st cell blockResp unblockResp).2 = [] ∧
        (CreateAppointments.toggleBlocked role st cell blockResp
          unblockResp).1.blockedMap = st.blockedMap ∧
        (CreateAppointments.toggleBlocked role st cell blockResp
          unblockResp).1.adminError ≠ "") ∧
    (∀ (now : Nat) (m : CreateAppointments.BlockedMap)
        (booked : List CreateAppointments.SlotKey) (dayKey slot : Nat),
      slot / 60 = 12 →
      (CreateAppointments.cellFor now m booked dayKey slot).isLunchBreak = true ∧
        (CreateAppointments.cellFor now m booked dayKey slot).blockedId =
          some (-1)) := by
  constructor
  · intro role st cell blockResp unblockResp h
    simp only [CreateAppointments.toggleBlocked]
    by_cases hrole : role = "admin"
    · rw [if_neg (not_not_intro hrole)]
      rcases h with h | h | h
      · rw [if_pos h]
        refine ⟨rfl, rfl, ?_⟩
        show "Past time slots cannot be updated." ≠ ""
        decide
      · by_cases hp : cell.isPast = true
        · rw [if_pos hp]
          refine ⟨rfl, rfl, ?_⟩
          show "Past time slots cannot be updated." ≠ ""
          decide
        · rw [if_neg hp, if_pos h]
          refine ⟨rfl, rfl, ?_⟩
          show "Booked appointment times cannot be blocked." ≠ ""
          decide
      · by_cases hp : cell.isPast = true
        · rw [if_pos hp]
          refine ⟨rfl, rfl, ?_⟩
          show "Past time slots cannot be updated." ≠ ""
          decide
        · rw [if_neg hp]
          by_cases hb : cell.isBooked = true
          · rw [if_pos hb]
            refine ⟨rfl, rfl, ?_⟩
            show "Booked appointment times cannot be blocked." ≠ ""
            decide
          · rw [if_neg hb, if_pos h]
            refine ⟨rfl, rfl, ?_⟩
            show "12:00 PM to 1:00 PM is reserved for lunch and is always blocked." ≠ ""
            decide
    · rw [if_pos hrole]
      refine ⟨rfl, rfl, ?_⟩
      show "Only admins can block appointment times." ≠ ""
      decide
  · intro now m booked dayKey slot h
    have hl : CreateAppointments.isLunchBreakSlot slot = true := by
      simp [CreateAppointments.isLunchBreakSlot, h]
    constructor
    · simp [CreateAppointments.cellFor, hl]
    · simp [CreateAppointments.cellFor, hl]

/-- A past, unblocked, unbooked cell for the C4 witness. -/
def pastCell : CreateAppointments.TimeCell :=
  { key := { day := 7, hour := 9, minute := 0 }, timeLabel := "9:00 AM",
    hourLabel := "9:00 AM", date := 7, time := 540, blockedId := none,
    isBooked := false, isLunchBreak := false, isPast := true }

/-- An empty admin state for the C4 and C6 witnesses. -/
def emptyAdminState : CreateAppointments.AdminState :=
  { blockedMap := [], adminMessage := "", adminError := "", isSaving := false }

/-- Witness for C4: toggling the past cell makes no call, keeps the empty
map, and surfaces an error; the 12:00 cell of any grid carries the lunch
flag and the `-1` sentinel. -/
theorem c4_toggle_guard_and_lunch_witness :
    (CreateAppointments.toggleBlocked "admin" emptyAdminState pastCell
        (.ok 5) (.ok ())).2 = [] ∧
      (CreateAppointments.toggleBlocked "admin" emptyAdminState pastCell
        (.ok 5) (.ok ())).1.blockedMap = emptyAdminState.blockedMap ∧
      (CreateAppointments.toggleBlocked "admin" emptyAdminState pastCell
        (.ok 5) (.ok ())).1.adminError ≠ "" ∧
      (CreateAppointments.cellFor 0 [] [] 7 720).blockedId = some (-1) :=
  have h₁ := c4_toggle_guard_and_lunch.1 "admin" emptyAdminState pastCell
    (.ok 5) (.ok ()) (Or.inl rfl)
  have h₂ := c4_toggle_guard_and_lunch.2 0 [] [] 7 720 (by decide)
  ⟨h₁.1, h₁.2.1, h₁.2.2, h₂.2⟩

/-- Helper: on a non-past, non-booked, non-lunch cell with no truthy block
id, `toggleBlocked` with an accepted create call records the returned id
under the cell's key. -/
lemma toggleBlocked_create_ok (st : CreateAppointments.AdminState)
    (cell : CreateAppointments.TimeCell) (k : Int) (u : Except String Unit)
    (hp : cell.isPast = false) (hb : cell.isBooked = false)
    (hl : cell.isLunchBreak = false) (hid : cell.blockedId = none) :
    (CreateAppointments.toggleBlocked "admin" st cell (.ok k) u).1.blockedMap =
      CreateAppointments.mapSet st.blockedMap cell.key k := by
  simp only [CreateAppointments.toggleBlocked]
  rw [if_neg (not_not_intro rfl), if_neg (by rw [hp]; exact Bool.noConfusion),
    if_neg (by rw [hb]; exact Bool.noConfusion),
    if_neg (by rw [hl]; exact Bool.noConfusion), hid]
  rfl

/-- Helper: on a non-past, non-booked, non-lunch cell whose block id is
truthy, `toggleBlocked` with an accepted delete call removes the cell's key
from the map. -/
lemma toggleBlocked_delete_ok (st : CreateAppointments.AdminState)
    (cell : CreateAppointments.TimeCell) (bid : Int) (br : Except String Int)
    (hp : cell.isPast = false) (hb : cell.isBooked = false)
    (hl : cell.isLunchBreak = false) (hid : cell.blockedId = some bid)
    (hbid : bid ≠ 0) :
    (CreateAppointments.toggleBlocked "admin" st cell br (.ok ())).1.blockedMap =
      CreateAppointments.mapDelete st.blockedMap cell.key := by
  simp only [CreateAppointments.toggleBlocked]
  rw [if_neg (not_not_intro rfl), if_neg (by rw [hp]; exact Bool.noConfusion),
    if_neg (by rw [hb]; exact Bool.noConfusion),
    if_neg (by rw [hl]; exact Bool.noConfusion), hid]
  dsimp only
  rw [if_pos hbid]

/-- Claim C6: toggling twice in succession on the same non-past, non-lunch,
non-booked, initially unblocked cell — the second toggle acting on the cell
as rebuilt from the updated map — restores the unblocked state for that
cell's key, provided the server accepts both calls and issues a truthy
(non-zero) block id. -/
theorem c6_toggle_twice (st : CreateAppointments.AdminState) (now : Nat)
    (booked : List CreateAppointments.SlotKey) (dayKey slot : Nat) (k : Int)
    (u₁ : Except String Unit) (br₂ : Except String Int)
    (hp : (CreateAppointments.cellFor now st.blockedMap booked dayKey slot).isPast
      = false)
    (hb : (CreateAppointments.cellFor now st.blockedMap booked dayKey slot).isBooked
      = false)
    (hl : (CreateAppointments.cellFor now st.blockedMap booked dayKey
      slot).isLunchBreak = false)
    (hfree : CreateAppointments.mapGet st.blockedMap
      (CreateAppointments.cellFor now st.blockedMap booked dayKey slot).key = none)
    (hk : k ≠ 0) :
    CreateAppointments.mapGet
      (CreateAppointments.toggleBlocked "admin"
        (CreateAppointments.toggleBlocked "admin" st
          (CreateAppointments.cellFor now st.blockedMap booked dayKey slot)
          (.ok k) u₁).1
        (CreateAppointments.cellFor now
          (CreateAppointments.toggleBlocked "admin" st
            (CreateAppointments.cellFor now st.blockedMap booked dayKey slot)
            (.ok k) u₁).1.blockedMap booked dayKey slot)
        br₂ (.ok ())).1.blockedMap
      (CreateAppointments.cellFor now st.blockedMap booked dayKey slot).key =
      none := by
  have hkey : (CreateAppointments.cellFor now st.blockedMap booked dayKey slot).key =
      { day := dayKey, hour := slot / 60, minute := slot % 60 } := rfl
  have hlslot : CreateAppointments.isLunchBreakSlot slot = false := hl
  have hid₁ : (CreateAppointments.cellFor now st.blockedMap booked dayKey
      slot).blockedId = none := by
    show (if CreateAppointments.isLunchBreakSlot slot then some (-1)
      else CreateAppointments.mapGet st.blockedMap
        { day := dayKey, hour := slot / 60, minute := slot % 60 }) = none
    rw [hlslot]
    exact hfree
  have hmap₁ : (CreateAppointments.toggleBlocked "admin" st
      (CreateAppointments.cellFor now st.blockedMap booked dayKey slot)
      (.ok k) u₁).1.blockedMap = st.blockedMap ++
        [({ day := dayKey, hour := slot / 60, minute := slot % 60 }, k)] := by
    rw [toggleBlocked_create_ok st _ k u₁ hp hb hl hid₁]
    exact CreateAppointments.mapSet_of_get_none _ _ _ hfree
  have hid₂ : (CreateAppointments.cellFor now ((CreateAppointments.toggleBlocked
      "admin" st (CreateAppointments.cellFor now st.blockedMap booked dayKey slot)
      (.ok k) u₁).1.blockedMap) booked dayKey slot).blockedId = some k := by
    show (if CreateAppointments.isLunchBreakSlot slot then some (-1)
      else CreateAppointments.mapGet (CreateAppointments.toggleBlocked "admin" st
        (CreateAppointments.cellFor now st.blockedMap booked dayKey slot)
        (.ok k) u₁).1.blockedMap
        { day := dayKey, hour := slot / 60, minute := slot % 60 }) = some k
    rw [hlslot, hmap₁]
    exact CreateAppointments.mapGet_append_single _ _ _ hfree
  rw [toggleBlocked_delete_ok
    (CreateAppointments.toggleBlocked "admin" st
      (CreateAppointments.cellFor now st.blockedMap booked dayKey slot)
      (.ok k) u₁).1
    (CreateAppointments.cellFor now
      (CreateAppointments.toggleBlocked "admin" st
        (CreateAppointments.cellFor now st.blockedMap booked dayKey slot)
        (.ok k) u₁).1.blockedMap booked dayKey slot)
    k br₂ hp hb hl hid₂ hk]
  exact CreateAppointments.mapGet_mapDelete_self _ _

/-- Witness for C6: with an empty map, now = 0 and the 10:00 cell of day 1,
a block (id 5) followed by an unblock leaves the cell's key unblocked. -/
theorem c6_toggle_twice_witness :
    CreateAppointments.mapGet
      (CreateAppointments.toggleBlocked "admin"
        (CreateAppointments.toggleBlocked "admin" emptyAdminState
          (CreateAppointments.cellFor 0 emptyAdminState.blockedMap [] 1 600)
          (.ok 5) (.ok ())).1
        (CreateAppointments.cellFor 0
          (CreateAppointments.toggleBlocked "admin" emptyAdminState
            (CreateAppointments.cellFor 0 emptyAdminState.blockedMap [] 1 600)
            (.ok 5) (.ok ())).1.blockedMap [] 1 600)
        (.ok 9) (.ok ())).1.blockedMap
      (CreateAppointments.cellFor 0 emptyAdminState.blockedMap [] 1 600).key =
      none :=
  c6_toggle_twice emptyAdminState 0 [] 1 600 5 (.ok ()) (.ok 9)
    (by decide) (by decide) (by decide) (by decide) (by decide)
